import Mathlib

/-!
Shallow embedding of the TikTok downloader bot core (src/index.js):
the key rotator, the URL validator, the two provider extract functions
and the provider fan-out loop, together with proofs of the spec claims.
-/

/-- JavaScript values as far as the bot inspects them: the decoded JSON
response bodies, the fields read by optional chaining, and the
truthiness tests. Numbers are modelled as integers (no float is ever
compared by the code). -/
inductive JSVal where
  | undefined
  | null
  | bool (b : Bool)
  | num (n : Int)
  | str (s : String)
  | obj (fields : List (String × JSVal))

/-- Property lookup on an object field list: first binding of the key
wins (a decoded JSON object has no duplicate keys at access time). -/
def lookupField : List (String × JSVal) → String → JSVal
  | [], _ => .undefined
  | (k, v) :: rest, key => if k = key then v else lookupField rest key

/-- Property access `v[key]`: any non-object value yields undefined for
the field names the code reads (none of them is a prototype member). -/
def getField : JSVal → String → JSVal
  | .obj fs, key => lookupField fs key
  | _, _ => .undefined

/-- Optional chaining `v?.key`: short-circuits to undefined on null and
undefined, otherwise plain property access. -/
def optGet (v : JSVal) (key : String) : JSVal :=
  match v with
  | .undefined => .undefined
  | .null => .undefined
  | _ => getField v key

/-- JavaScript truthiness: undefined, null, false, 0 and the empty
string are falsy; every object is truthy. -/
def truthy : JSVal → Bool
  | .undefined => false
  | .null => false
  | .bool b => b
  | .num n => n != 0
  | .str s => !s.isEmpty
  | .obj _ => true

/-- The JavaScript `a || b` operator: the left operand when truthy,
otherwise the right operand. -/
def jsOr (a b : JSVal) : JSVal :=
  if truthy a then a else b

/-- The normalized tuple built by a provider extract function
(src/index.js lines 38-42 and 58-62). -/
structure Extracted where
  videoUrl : JSVal
  title : JSVal
  author : JSVal

/-- Extract function of provider RapidAPI-1 (src/index.js lines 35-43):
reads data?.data?.play, returns null when it is falsy, otherwise the
tuple with title and author falling back to literal strings. -/
def extract1 (data : JSVal) : Option Extracted :=
  let play := optGet (optGet data "data") "play"
  if truthy play then
    some { videoUrl := play
           title := jsOr (optGet (optGet data "data") "title") (.str "TikTok Video")
           author := jsOr (optGet (optGet (optGet data "data") "author") "nickname") (.str "Unknown") }
  else none

/-- Extract function of provider RapidAPI-2 (src/index.js lines 55-62):
play falls through data?.data?.play, data?.data?.wmplay, data?.play;
title through data?.data?.title, data?.title; author through
data?.data?.author?.nickname, data?.author. -/
def extract2 (data : JSVal) : Option Extracted :=
  let play := jsOr (jsOr (optGet (optGet data "data") "play") (optGet (optGet data "data") "wmplay")) (optGet data "play")
  if truthy play then
    some { videoUrl := play
           title := jsOr (jsOr (optGet (optGet data "data") "title") (optGet data "title")) (.str "TikTok Video")
           author := jsOr (jsOr (optGet (optGet (optGet data "data") "author") "nickname") (optGet data "author")) (.str "Unknown") }
  else none

/-- Provider descriptor (src/index.js lines 27-68). The buildHeaders
closure draws one key from the rotator; its effect is threaded
explicitly through the fetch loop below, and the fixed host header is
kept here as data. -/
structure Provider where
  name : String
  url : String
  rapidApiHost : String
  extract : JSVal → Option Extracted
  method : String
  paramKey : String
  timeout : Nat

/-- Provider RapidAPI-1 of the registry. -/
def PROVIDER1 : Provider :=
  { name := "RapidAPI-1"
    url := "https://tiktok-video-no-watermark2.p.rapidapi.com/"
    rapidApiHost := "tiktok-video-no-watermark2.p.rapidapi.com"
    extract := extract1
    method := "GET"
    paramKey := "url"
    timeout := 15000 }

/-- Provider RapidAPI-2 of the registry. -/
def PROVIDER2 : Provider :=
  { name := "RapidAPI-2"
    url := "https://tiktok-video-no-watermark.p.rapidapi.com/"
    rapidApiHost := "tiktok-video-no-watermark.p.rapidapi.com"
    extract := extract2
    method := "GET"
    paramKey := "url"
    timeout := 15000 }

/-- The provider registry, in source order (src/index.js line 27). -/
def API_PROVIDERS : List Provider := [PROVIDER1, PROVIDER2]

/-- Key rotator (src/index.js lines 20-25): returns the key at the
cursor modulo the pool size and increments the cursor. The JS indexing
yields undefined on an empty pool, modelled by Option. -/
def getNextKey (keys : List String) (keyIndex : Nat) : Option String × Nat :=
  (keys[keyIndex % keys.length]?, keyIndex + 1)

/-- Trace of n strictly sequential rotator calls starting from cursor 0:
the list of returned keys and the final cursor. -/
def rotTrace (keys : List String) : Nat → List (Option String) × Nat
  | 0 => ([], 0)
  | n + 1 =>
    let t := rotTrace keys n
    let c := getNextKey keys t.2
    (t.1 ++ [c.1], c.2)

/-- Outcome of one HTTP call to a provider: a decoded response body, or
a throw (network error, timeout, non-2xx all raise in axios). -/
inductive HttpResult where
  | ok (data : JSVal)
  | err

/-- Result of the fetch orchestrator: the spread success record
with ok true, or the all-failed record with ok false
(src/index.js lines 116 and 122). -/
inductive ResolveResult where
  | success (provider : String) (videoUrl title author : JSVal)
  | allFailed

/-- Fetch orchestrator (src/index.js lines 101-123) over a registry
paired with the HTTP outcome each attempt would get, threading the
rotation cursor: per attempt it builds headers (drawing one key), issues
the call, runs extract, and returns on a truthy videoUrl; a throw or a
failed guard falls through to the next provider. -/
def fetchViaProviders (keys : List String) : List (Provider × HttpResult) → Nat → ResolveResult × Nat
  | [], k => (.allFailed, k)
  | (p, r) :: rest, k =>
    let k' := (getNextKey keys k).2
    match r with
    | .err => fetchViaProviders keys rest k'
    | .ok data =>
      match p.extract data with
      | some n =>
        if truthy n.videoUrl then (.success p.name n.videoUrl n.title n.author, k')
        else fetchViaProviders keys rest k'
      | none => fetchViaProviders keys rest k'

/-- The guard on src/index.js line 115, normalized?.videoUrl as a
boolean: falsy when extract returned null, otherwise the truthiness of
the videoUrl field. -/
def guardPass (p : Provider) (d : JSVal) : Bool :=
  match p.extract d with
  | some n => truthy n.videoUrl
  | none => false

/-- Whether one provider attempt succeeds given its HTTP outcome. -/
def attemptSucceeds (p : Provider) (r : HttpResult) : Bool :=
  match r with
  | .err => false
  | .ok d => guardPass p d

/-- Index of the first succeeding attempt in the paired registry. -/
def firstSuccessIdx : List (Provider × HttpResult) → Option Nat
  | [] => none
  | (p, r) :: rest =>
    if attemptSucceeds p r then some 0
    else (firstSuccessIdx rest).map (· + 1)

/-- Number of providers the loop attempts: up to and including the first
success, or the whole registry when none succeeds. -/
def expectedAttempts (l : List (Provider × HttpResult)) : Nat :=
  match firstSuccessIdx l with
  | some i => i + 1
  | none => l.length

/-- The whitespace class of the JavaScript regex escape backslash-s:
ASCII whitespace plus the Unicode space separators, line and paragraph
separators, and the byte order mark. -/
def jsWhitespace (c : Char) : Bool :=
  c = ' ' || c = '\t' || c = '\n' || c = '\r' || c = '\x0b' || c = '\x0c' ||
  c = '\u00A0' || c = '\u1680' || ('\u2000' ≤ c && c ≤ '\u200A') ||
  c = '\u2028' || c = '\u2029' || c = '\u202F' || c = '\u205F' ||
  c = '\u3000' || c = '\uFEFF'

/-- Case-insensitive literal match of a lowercase pattern against the
front of the input, returning the remaining input. Lean Char.toLower
lowers only ASCII letters, which agrees with the regex: without the u
flag a non-ASCII input character never matches an ASCII pattern
character case-insensitively. -/
def stripCI : List Char → List Char → Option (List Char)
  | [], cs => some cs
  | _ :: _, [] => none
  | p :: ps, c :: cs => if c.toLower = p then stripCI ps cs else none

/-- Optional literal group: consume the pattern when it matches, else
consume nothing. For each optional group of the TikTok regex this
commitment equals backtracking semantics, because whenever the group
matches, skipping it dead-ends: the first character after a present
group (w, m, v) differs from every first character the continuation
could accept (m, v, t after the subdomain groups; the colon after the
optional scheme s). -/
def tryOpt (pat : List Char) (cs : List Char) : List Char :=
  match stripCI pat cs with
  | some rest => rest
  | none => cs

/-- Attempt the regex

  https?://(www.)?(m.)?(vm.)?tiktok.com/ then one or more non-spaces

(src/index.js line 70, dots literal, case-insensitive) at the start of
cs; on success return the matched prefix, with the trailing character
class taken greedily as the regex does. -/
def matchAt (cs : List Char) : Option (List Char) :=
  match stripCI ['h', 't', 't', 'p'] cs with
  | none => none
  | some r1 =>
    let r2 := tryOpt ['s'] r1
    match stripCI [':', '/', '/'] r2 with
    | none => none
    | some r3 =>
      let r4 := tryOpt ['w', 'w', 'w', '.'] r3
      let r5 := tryOpt ['m', '.'] r4
      let r6 := tryOpt ['v', 'm', '.'] r5
      match stripCI ['t', 'i', 'k', 't', 'o', 'k', '.', 'c', 'o', 'm', '/'] r6 with
      | none => none
      | some r7 =>
        let body := r7.takeWhile (fun c => !jsWhitespace c)
        if body.isEmpty then none
        else some (cs.take (cs.length - r7.length + body.length))

/-- Leftmost match: try every start position from the left, as the
JavaScript match method does for a regex without the g flag. -/
def findFirst : List Char → Option (List Char)
  | [] => none
  | c :: rest =>
    match matchAt (c :: rest) with
    | some m => some m
    | none => findFirst rest

/-- The first substring of text matched by the TikTok regex, as
text.match(TIKTOK_REGEX) index 0 returns it. -/
def jsMatchFirst (text : String) : Option String :=
  (findFirst text.toList).map String.mk

/-- Everything after the scheme-terminating colon-slash-slash, locating
the first colon of the input as a URL parser does for the scheme
delimiter; none when the input has no such prefix. -/
def afterSchemeSlashes : List Char → Option (List Char)
  | ':' :: '/' :: '/' :: rest => some rest
  | ':' :: _ => none
  | [] => none
  | _ :: rest => afterSchemeSlashes rest

/-- Hostname of a URL string as the WHATWG URL constructor exposes it
for the http and https special schemes: the authority runs to the first
slash, question mark or hash; userinfo before the last at sign and a
port after a colon are dropped; the host is lowercased; an empty host
makes the constructor throw, modelled by none. Faithful for every
string the validator parses, since a regex match always has the shape
scheme colon-slash-slash, letters and dots, slash, non-spaces. -/
def urlHostname (s : String) : Option String :=
  match afterSchemeSlashes s.toList with
  | none => none
  | some rest =>
    let auth := rest.takeWhile (fun c => c ≠ '/' && c ≠ '?' && c ≠ '#')
    let hostport := (auth.reverse.takeWhile (fun c => c ≠ '@')).reverse
    let host := hostport.takeWhile (fun c => c ≠ ':')
    if host.isEmpty then none
    else some (String.mk (host.map Char.toLower))

/-- Character-wise ASCII lowercasing, the effect of the JavaScript
toLowerCase call on the hostnames the URL constructor returns (always
ASCII: letters, digits, dots and hyphens). -/
def lowerStr (s : String) : String := String.mk (s.toList.map Char.toLower)

/-- The hostname allow-list (src/index.js line 71). -/
def ALLOWED_DOMAINS : List String :=
  ["tiktok.com", "www.tiktok.com", "m.tiktok.com", "vm.tiktok.com"]

/-- URL validator (src/index.js lines 73-83): reject when the regex has
no match; otherwise parse the first matched substring as a URL — a
parse failure is caught and rejects — and accept exactly when the
lowercased hostname is on the allow-list. -/
def isTikTokUrl (text : String) : Bool :=
  match jsMatchFirst text with
  | none => false
  | some m =>
    match urlHostname m with
    | none => false
    | some h => ALLOWED_DOMAINS.contains (lowerStr h)

/-- The play chain probed by provider 1: data?.data?.play. -/
def playChain1 (d : JSVal) : JSVal := optGet (optGet d "data") "play"

/-- The title chain probed by provider 1: data?.data?.title. -/
def titleChain1 (d : JSVal) : JSVal := optGet (optGet d "data") "title"

/-- The author chain probed by provider 1: data?.data?.author?.nickname. -/
def authorChain1 (d : JSVal) : JSVal :=
  optGet (optGet (optGet d "data") "author") "nickname"

/-- The play chain probed by provider 2: first truthy of data?.data?.play,
data?.data?.wmplay, data?.play. -/
def playChain2 (d : JSVal) : JSVal :=
  jsOr (jsOr (optGet (optGet d "data") "play") (optGet (optGet d "data") "wmplay")) (optGet d "play")

/-- The title chain probed by provider 2: first truthy of
data?.data?.title, data?.title. -/
def titleChain2 (d : JSVal) : JSVal :=
  jsOr (optGet (optGet d "data") "title") (optGet d "title")

/-- The author chain probed by provider 2: first truthy of
data?.data?.author?.nickname, data?.author. -/
def authorChain2 (d : JSVal) : JSVal :=
  jsOr (optGet (optGet (optGet d "data") "author") "nickname") (optGet d "author")

/-- Two calls of the same extract function on the same payload. -/
def extractTwice (p : Provider) (d : JSVal) : Option Extracted × Option Extracted :=
  (p.extract d, p.extract d)

/-- The mocked first-provider response body of the end-to-end spec
example: data.play, data.title, data.author.nickname all set. -/
def payload5 : JSVal :=
  .obj [("data", .obj [("play", .str "http://x/video.mp4"),
                       ("title", .str "T"),
                       ("author", .obj [("nickname", .str "A")])])]

/-- A payload whose title is present but is the empty string: play is
truthy, so extract returns a tuple; the title is falsy, so the literal
fallback is taken although a title is present. -/
def cexPayload : JSVal :=
  .obj [("data", .obj [("play", .str "p"), ("title", .str "")])]

/-- A test provider whose extract always returns null. -/
def pNull : Provider :=
  { name := "P-null", url := "", rapidApiHost := "", extract := fun _ => none,
    method := "GET", paramKey := "url", timeout := 1000 }

/-- A test provider whose extract always returns a fixed valid tuple. -/
def pConst : Provider :=
  { name := "P-const", url := "", rapidApiHost := "",
    extract := fun _ => some { videoUrl := .str "u", title := .str "t", author := .str "a" },
    method := "GET", paramKey := "url", timeout := 1000 }

/-- A text whose first regex match has a hostname off the allow-list
while a later substring is an allowed link. -/
def badFirstText : String := "https://www.m.tiktok.com/a https://tiktok.com/b"

/-- After n strictly sequential calls from cursor 0 the cursor is n. -/
theorem rotTrace_cursor (keys : List String) : ∀ n, (rotTrace keys n).2 = n := by
  intro n
  induction n with
  | zero => rfl
  | succ n ih => simp [rotTrace, getNextKey, ih]

/-- The trace of the first n rotator calls lists the keys at the
cursor values 0, ..., n-1 modulo the pool size. -/
theorem rotTrace_elems (keys : List String) :
    ∀ n, (rotTrace keys n).1 = (List.range n).map (fun i => keys[i % keys.length]?) := by
  intro n
  induction n with
  | zero => rfl
  | succ n ih =>
    simp [rotTrace, getNextKey, ih, rotTrace_cursor, List.range_succ]

/-- Reading a pool at cursors 0, ..., length-1 modulo the length lists
the pool itself in order. -/
theorem range_mod_map (keys : List String) :
    (List.range keys.length).map (fun i => keys[i % keys.length]?) = keys.map some := by
  apply List.ext_getElem?
  intro i
  by_cases hi : i < keys.length
  · rw [List.getElem?_map, List.getElem?_map, List.getElem?_range hi,
      List.getElem?_eq_getElem hi]
    simp [Nat.mod_eq_of_lt hi, List.getElem?_eq_getElem hi]
  · rw [List.getElem?_map, List.getElem?_map]
    rw [List.getElem?_eq_none (by simpa using Nat.le_of_not_lt hi),
      List.getElem?_eq_none (by omega)]
    rfl

/-- Claim C4: from the initial cursor, N sequential rotator calls on a
pool of size N of at least one key return each credential exactly once
in pool order, the call after that wraps to the first credential again,
and the returned key is periodic in the cursor with period N (each call
advances the cursor by exactly one, so call number and cursor agree). -/
theorem key_rotator_cycles (keys : List String) (_hne : keys ≠ []) :
    (∀ n, (rotTrace keys n).2 = n) ∧
    (rotTrace keys keys.length).1 = keys.map some ∧
    (getNextKey keys keys.length).1 = keys[0]? ∧
    (∀ n, (getNextKey keys (n + keys.length)).1 = (getNextKey keys n).1) := by
  refine ⟨rotTrace_cursor keys, ?_, ?_, ?_⟩
  · rw [rotTrace_elems keys keys.length, range_mod_map keys]
  · simp [getNextKey, Nat.mod_self]
  · intro n
    simp [getNextKey, Nat.add_mod_right]

/-- Witness for C4 on the pool of the two keys k1 and k2. -/
theorem key_rotator_cycles_witness :
    (rotTrace ["k1", "k2"] 2).1 = [some "k1", some "k2"] ∧
    (getNextKey ["k1", "k2"] 2).1 = some "k1" ∧
    (getNextKey ["k1", "k2"] 5).1 = (getNextKey ["k1", "k2"] 3).1 := by
  have h := key_rotator_cycles ["k1", "k2"] (by decide)
  exact ⟨h.2.1, h.2.2.1, h.2.2.2 3⟩

/-- Claim C2: with a registry of two providers whose HTTP calls return
bodies, the first provider always extracting null and the second
extracting a tuple with a truthy video URL, the loop returns the ok
record built from the second tuple under the second provider name. The
final cursor k + 2 shows that provider 1 drew its key (was attempted)
before provider 2; the arbitrary tail of further providers leaves the
result and the cursor untouched, so after the first success no
remaining provider is queried. -/
theorem fetch_first_success_wins (keys : List String) (p1 p2 : Provider)
    (d1 d2 : JSVal) (n : Extracted) (rest : List (Provider × HttpResult)) (k : Nat)
    (h1 : ∀ d, p1.extract d = none)
    (h2 : p2.extract d2 = some n) (hv : truthy n.videoUrl = true) :
    fetchViaProviders keys ((p1, .ok d1) :: (p2, .ok d2) :: rest) k =
      (.success p2.name n.videoUrl n.title n.author, k + 2) := by
  simp [fetchViaProviders, getNextKey, h1 d1, h2, hv]

/-- Witness for C2: an always-null provider followed by a constant
successful provider. -/
theorem fetch_first_success_wins_witness :
    fetchViaProviders [] [(pNull, .ok .null), (pConst, .ok .null)] 0 =
      (.success "P-const" (.str "u") (.str "t") (.str "a"), 2) :=
  fetch_first_success_wins [] pNull pConst .null .null
    { videoUrl := .str "u", title := .str "t", author := .str "a" } [] 0
    (fun _ => rfl) rfl rfl

/-- Claim C3: when every HTTP call throws, the loop swallows each
failure, moves on, and only after the whole registry is exhausted
returns the ok-false record; the cursor shows every provider was
attempted. The loop is a total function of its inputs, so it never
itself throws. -/
theorem fetch_all_fail (keys : List String) (l : List (Provider × HttpResult)) (k : Nat)
    (h : ∀ pr ∈ l, pr.2 = HttpResult.err) :
    fetchViaProviders keys l k = (.allFailed, k + l.length) := by
  induction l generalizing k with
  | nil => simp [fetchViaProviders]
  | cons hd tl ih =>
    obtain ⟨p, r⟩ := hd
    have hr : r = HttpResult.err := h (p, r) (by simp)
    subst hr
    have step := ih (k + 1) (fun pr hpr => h pr (List.mem_cons_of_mem _ hpr))
    simp [fetchViaProviders, getNextKey, step]
    omega

/-- Witness for C3: both registry providers throwing. -/
theorem fetch_all_fail_witness :
    fetchViaProviders ["k1"] [(PROVIDER1, .err), (PROVIDER2, .err)] 0 = (.allFailed, 2) :=
  fetch_all_fail ["k1"] [(PROVIDER1, .err), (PROVIDER2, .err)] 0 (by simp)

/-- Claim C5: the spec link passes the validator, and with the first
registry provider receiving the mocked body with data.play, data.title
and data.author.nickname set, the loop returns ok true, the provider
name RapidAPI-1, and exactly the mocked video URL, title and author,
for any key pool, cursor and remaining registry tail. -/
theorem end_to_end_first_provider :
    isTikTokUrl "https://vm.tiktok.com/ZMabc123/" = true ∧
    ∀ (keys : List String) (rest : List (Provider × HttpResult)) (k : Nat),
      fetchViaProviders keys ((PROVIDER1, .ok payload5) :: rest) k =
        (.success "RapidAPI-1" (.str "http://x/video.mp4") (.str "T") (.str "A"), k + 1) := by
  refine ⟨by decide, ?_⟩
  intro keys rest k
  rfl

/-- One step of the attempted-provider count: a succeeding head attempt
stops the loop at one draw, otherwise one draw plus the tail count. -/
theorem expectedAttempts_cons (p : Provider) (r : HttpResult) (tl : List (Provider × HttpResult)) :
    expectedAttempts ((p, r) :: tl) =
      if attemptSucceeds p r then 1 else expectedAttempts tl + 1 := by
  by_cases hs : attemptSucceeds p r
  · simp [expectedAttempts, firstSuccessIdx, hs]
  · cases hfi : firstSuccessIdx tl <;>
      simp [expectedAttempts, firstSuccessIdx, hs, hfi]

/-- The loop never attempts more providers than the registry holds. -/
theorem expectedAttempts_le (l : List (Provider × HttpResult)) :
    expectedAttempts l ≤ l.length := by
  induction l with
  | nil => simp [expectedAttempts, firstSuccessIdx]
  | cons hd tl ih =>
    obtain ⟨p, r⟩ := hd
    rw [expectedAttempts_cons]
    by_cases hs : attemptSucceeds p r
    · simp [hs]
    · simp [hs]; omega

/-- The final cursor is the starting cursor plus one per attempted
provider. -/
theorem fetch_cursor_eq (keys : List String) (l : List (Provider × HttpResult)) (k : Nat) :
    (fetchViaProviders keys l k).2 = k + expectedAttempts l := by
  induction l generalizing k with
  | nil => simp [fetchViaProviders, expectedAttempts, firstSuccessIdx]
  | cons hd tl ih =>
    obtain ⟨p, r⟩ := hd
    rw [expectedAttempts_cons]
    cases r with
    | err =>
      have hs : attemptSucceeds p HttpResult.err = false := rfl
      rw [hs]
      simp [fetchViaProviders, getNextKey, ih]
      omega
    | ok d =>
      cases hp : p.extract d with
      | none =>
        have hs : attemptSucceeds p (HttpResult.ok d) = false := by
          simp [attemptSucceeds, guardPass, hp]
        rw [hs]
        simp [fetchViaProviders, getNextKey, hp, ih]
        omega
      | some n =>
        cases hv : truthy n.videoUrl with
        | false =>
          have hs : attemptSucceeds p (HttpResult.ok d) = false := by
            simp [attemptSucceeds, guardPass, hp, hv]
          rw [hs]
          simp [fetchViaProviders, getNextKey, hp, hv, ih]
          omega
        | true =>
          have hs : attemptSucceeds p (HttpResult.ok d) = true := by
            simp [attemptSucceeds, guardPass, hp, hv]
          rw [hs]
          simp [fetchViaProviders, getNextKey, hp, hv]

/-- Claim C7: the only process state the loop touches is the rotation
cursor. In this embedding the key pool and the registry are inputs the
loop returns unchanged by construction; the cursor comes back advanced
by exactly one per attempted provider (one draw inside buildHeaders per
attempt, bounded by the registry size), never below its starting value,
and each single rotator call advances it by exactly one. -/
theorem fetch_cursor_frame :
    (∀ (keys : List String) (l : List (Provider × HttpResult)) (k : Nat),
        (fetchViaProviders keys l k).2 = k + expectedAttempts l ∧
        expectedAttempts l ≤ l.length ∧
        k ≤ (fetchViaProviders keys l k).2) ∧
    (∀ (keys : List String) (k : Nat), (getNextKey keys k).2 = k + 1) := by
  refine ⟨fun keys l k => ⟨fetch_cursor_eq keys l k, expectedAttempts_le l, ?_⟩, fun _ _ => rfl⟩
  rw [fetch_cursor_eq keys l k]
  exact Nat.le_add_right k (expectedAttempts l)

/-- Claim C1: for every input text the validator accepts exactly when
the text has a first substring matched by the link pattern whose parsed
hostname, compared case-insensitively, is one of the four allowed
hostnames; the three spec examples behave as stated. -/
theorem url_validator_allowlist :
    (∀ text : String,
        isTikTokUrl text = true ↔
          ∃ m h, jsMatchFirst text = some m ∧ urlHostname m = some h ∧
            ALLOWED_DOMAINS.contains (lowerStr h) = true) ∧
    isTikTokUrl "check https://www.tiktok.com/@x/video/1" = true ∧
    isTikTokUrl "see https://eviltiktok.com/video" = false ∧
    isTikTokUrl "https://tiktok.com.evil.net/a" = false := by
  refine ⟨?_, by decide, by decide, by decide⟩
  intro text
  constructor
  · intro hT
    cases hm : jsMatchFirst text with
    | none => simp [isTikTokUrl, hm] at hT
    | some m =>
      cases hh : urlHostname m with
      | none => simp [isTikTokUrl, hm, hh] at hT
      | some h =>
        simp only [isTikTokUrl, hm, hh] at hT
        exact ⟨m, h, rfl, hh, hT⟩
  · rintro ⟨m, h, hm, hh, hc⟩
    simp only [isTikTokUrl, hm, hh]
    exact hc

/-- Witness for C1: a link accepted through the existential direction
of the characterization. -/
theorem url_validator_allowlist_witness :
    isTikTokUrl "https://m.tiktok.com/v/42" = true :=
  (url_validator_allowlist.1 "https://m.tiktok.com/v/42").mpr
    ⟨"https://m.tiktok.com/v/42", "m.tiktok.com", by decide, by decide, by decide⟩

/-- Claim C9: the validator inspects only the first substring the
pattern matches: whenever that first match parses to a hostname off the
allow-list the whole text is rejected, even when a later substring of
the text is an allowed link, as on the concrete two-link text. -/
theorem validator_first_match_only :
    (∀ text m h : String,
        jsMatchFirst text = some m → urlHostname m = some h →
        ALLOWED_DOMAINS.contains (lowerStr h) = false → isTikTokUrl text = false) ∧
    badFirstText = "https://www.m.tiktok.com/a" ++ " " ++ "https://tiktok.com/b" ∧
    jsMatchFirst badFirstText = some "https://www.m.tiktok.com/a" ∧
    urlHostname "https://www.m.tiktok.com/a" = some "www.m.tiktok.com" ∧
    ALLOWED_DOMAINS.contains (lowerStr "www.m.tiktok.com") = false ∧
    isTikTokUrl badFirstText = false ∧
    isTikTokUrl "https://tiktok.com/b" = true := by
  refine ⟨?_, rfl, by decide, by decide, by decide, by decide, by decide⟩
  intro text m h hm hh hc
  simp only [isTikTokUrl, hm, hh]
  exact hc

/-- Witness for C9 at the concrete two-link text. -/
theorem validator_first_match_only_witness :
    isTikTokUrl badFirstText = false :=
  validator_first_match_only.1 badFirstText "https://www.m.tiktok.com/a"
    "www.m.tiktok.com" (by decide) (by decide) (by decide)

/-- Counterexample to claim C6 as stated: on a payload whose
data.data.title is present but is the empty string, extract of provider
1 returns a tuple, yet its title is the literal fallback and not the
present payload title, because the fallback triggers on every falsy
value, not only on absence. -/
theorem extract_defaults_claim_cex :
    extract1 cexPayload =
      some { videoUrl := .str "p", title := .str "TikTok Video", author := .str "Unknown" } ∧
    titleChain1 cexPayload = JSVal.str "" ∧
    ¬ titleChain1 cexPayload = JSVal.undefined ∧
    ¬ JSVal.str "TikTok Video" = JSVal.str "" := by
  refine ⟨rfl, rfl, ?_, ?_⟩
  · intro hEq
    have hEq2 : JSVal.str "" = JSVal.undefined := hEq
    exact nomatch hEq2
  · intro hEq
    injection hEq with hs
    exact absurd hs (by decide)

/-- Claim C6 amended: when extract returns a tuple, the title equals
the probed title value if that value is truthy and the literal TikTok
Video if it is falsy (absent, null, empty, zero or false) — for
provider 2 the probed title is the first truthy of data.data.title and
data.title; the author likewise equals the first truthy probed author
value (data.data.author.nickname for provider 1, then data.author for
provider 2) and the literal Unknown when all are falsy; extract returns
null exactly when the probed play value is falsy. -/
theorem extract_defaults_truthy :
    (∀ d n, extract1 d = some n →
        n.title = (if truthy (titleChain1 d) then titleChain1 d else .str "TikTok Video") ∧
        n.author = (if truthy (authorChain1 d) then authorChain1 d else .str "Unknown")) ∧
    (∀ d n, extract2 d = some n →
        n.title = (if truthy (titleChain2 d) then titleChain2 d else .str "TikTok Video") ∧
        n.author = (if truthy (authorChain2 d) then authorChain2 d else .str "Unknown")) ∧
    (∀ d, extract1 d = none ↔ truthy (playChain1 d) = false) ∧
    (∀ d, extract2 d = none ↔ truthy (playChain2 d) = false) := by
  refine ⟨?_, ?_, ?_, ?_⟩
  · intro d n h
    rcases Bool.eq_false_or_eq_true (truthy (optGet (optGet d "data") "play")) with hp | hp
    · simp [extract1, hp] at h
      subst h
      exact ⟨rfl, rfl⟩
    · simp [extract1, hp] at h
  · intro d n h
    rcases Bool.eq_false_or_eq_true
      (truthy (jsOr (jsOr (optGet (optGet d "data") "play") (optGet (optGet d "data") "wmplay")) (optGet d "play"))) with hp | hp
    · simp [extract2, hp] at h
      subst h
      exact ⟨rfl, rfl⟩
    · simp [extract2, hp] at h
  · intro d
    rcases Bool.eq_false_or_eq_true (truthy (optGet (optGet d "data") "play")) with hp | hp <;>
      simp [extract1, playChain1, hp]
  · intro d
    rcases Bool.eq_false_or_eq_true
      (truthy (jsOr (jsOr (optGet (optGet d "data") "play") (optGet (optGet d "data") "wmplay")) (optGet d "play"))) with hp | hp <;>
      simp [extract2, playChain2, hp]

/-- Witness for the amended C6: on the empty-title payload the title
branch takes the fallback, and provider 2 returns null on a null body. -/
theorem extract_defaults_truthy_witness :
    JSVal.str "TikTok Video" =
      (if truthy (titleChain1 cexPayload) then titleChain1 cexPayload
       else JSVal.str "TikTok Video") ∧
    extract2 JSVal.null = none :=
  ⟨(extract_defaults_truthy.1 cexPayload
      { videoUrl := .str "p", title := .str "TikTok Video", author := .str "Unknown" } rfl).1,
   (extract_defaults_truthy.2.2.2 JSVal.null).mpr rfl⟩

/-- Claim C8: extract of each registry provider is a deterministic pure
function of the decoded response body — two calls on the same payload
return identical normalized output. In the source neither extract
closure reads or writes any process state (the rotation cursor is
touched only by buildHeaders), which is what lets extract be embedded
as a plain function of the payload; determinism of the double call is
then definitional. -/
theorem extract_idempotent :
    ∀ p ∈ API_PROVIDERS, ∀ d : JSVal, (extractTwice p d).1 = (extractTwice p d).2 := by
  intro p _ d
  rfl

/-- Witness for C8: provider 1 on the mocked payload. -/
theorem extract_idempotent_witness :
    (extractTwice PROVIDER1 payload5).1 = (extractTwice PROVIDER1 payload5).2 :=
  extract_idempotent PROVIDER1 (by simp [API_PROVIDERS]) payload5

/-- Claim C10: whenever a registry extract returns a tuple, its
videoUrl field is exactly the truthy probed play value that passed the
null check, so the tuple videoUrl is always truthy; consequently the
orchestrator guard on normalized videoUrl passes exactly when extract
returned a tuple, and its failure branch is unreachable for a non-null
extract result. -/
theorem extract_guard_redundant :
    (∀ d n, extract1 d = some n → n.videoUrl = playChain1 d ∧ truthy n.videoUrl = true) ∧
    (∀ d n, extract2 d = some n → n.videoUrl = playChain2 d ∧ truthy n.videoUrl = true) ∧
    (∀ p ∈ API_PROVIDERS, ∀ d : JSVal, guardPass p d = (p.extract d).isSome) := by
  refine ⟨?_, ?_, ?_⟩
  · intro d n h
    rcases Bool.eq_false_or_eq_true (truthy (optGet (optGet d "data") "play")) with hp | hp
    · simp [extract1, hp] at h
      subst h
      exact ⟨rfl, hp⟩
    · simp [extract1, hp] at h
  · intro d n h
    rcases Bool.eq_false_or_eq_true
      (truthy (jsOr (jsOr (optGet (optGet d "data") "play") (optGet (optGet d "data") "wmplay")) (optGet d "play"))) with hp | hp
    · simp [extract2, hp] at h
      subst h
      exact ⟨rfl, hp⟩
    · simp [extract2, hp] at h
  · intro p hp d
    have hp2 : p = PROVIDER1 ∨ p = PROVIDER2 := by
      simpa [API_PROVIDERS] using hp
    rcases hp2 with rfl | rfl
    · rcases Bool.eq_false_or_eq_true (truthy (optGet (optGet d "data") "play")) with h1 | h1 <;>
        simp [guardPass, PROVIDER1, extract1, h1]
    · rcases Bool.eq_false_or_eq_true
        (truthy (jsOr (jsOr (optGet (optGet d "data") "play") (optGet (optGet d "data") "wmplay")) (optGet d "play"))) with h1 | h1 <;>
        simp [guardPass, PROVIDER2, extract2, h1]

/-- Witness for C10: the empty-title payload has a truthy play, and the
guard equivalence holds for provider 1 on it. -/
theorem extract_guard_redundant_witness :
    truthy (JSVal.str "p") = true ∧
    guardPass PROVIDER1 cexPayload = (extract1 cexPayload).isSome :=
  ⟨(extract_guard_redundant.1 cexPayload
      { videoUrl := .str "p", title := .str "TikTok Video", author := .str "Unknown" } rfl).2,
   extract_guard_redundant.2.2 PROVIDER1 (by simp [API_PROVIDERS]) cexPayload⟩
